import Mathlib

/-!
Verification of the WHOIS CLI tool (files `who_is_CLI.py` and `whois_cli.py`).

The two Python files are near-duplicates; we embed each one's `smart_whois`
pipeline separately (namespaces `WhoIsCLI` and `WhoisCli`) over a shared
transport/regex layer.  The network is modelled as an oracle
(`Env.net : query → server → port → timeout → Except error response`), and every
invocation of `whois_query_server` is recorded in an explicit call trace so that
"exactly one additional query" style properties are statable.  Strings are
modelled as `List Char`; Python's `str.strip`, `str.lower`, `str.split(".")`,
`str.endswith` and the two `re.search` patterns used by the code are embedded
directly.  The byte-level behaviour of `bytes.decode('utf-8', errors='ignore')`
is modelled separately on `List Nat` for the decoding claims.
-/

/-- Python's `\s` on the ASCII range (space, tab, newline, carriage return,
vertical tab, form feed); the whitespace class used by `str.strip` and by the
`\s*` in the two regular expressions of the source. -/
def isPySpace (c : Char) : Bool :=
  c = ' ' || c = '\t' || c = '\n' || c = '\r' || c.toNat = 11 || c.toNat = 12

/-- ASCII lowering, modelling `str.lower()` / `re.IGNORECASE` on the ASCII
letters that appear in the source's patterns and server names. -/
def asciiLower (c : Char) : Char :=
  if 'A' ≤ c ∧ c ≤ 'Z' then Char.ofNat (c.toNat + 32) else c

/-- `domain.lower()` from the source, character-wise ASCII lowering. -/
def pyLower (l : List Char) : List Char := l.map asciiLower

/-- `str.strip()` from the source: drop whitespace from both ends. -/
def pyStrip (l : List Char) : List Char :=
  ((l.dropWhile (fun c => isPySpace c)).reverse.dropWhile (fun c => isPySpace c)).reverse

/-- `str.split(".")` from the source (`domain.lower().split(".")`):
split on every `'.'`, keeping empty pieces, never returning `[]`. -/
def pySplitDot : List Char → List (List Char)
  | [] => [[]]
  | c :: rest =>
    if c = '.' then [] :: pySplitDot rest
    else
      match pySplitDot rest with
      | [] => [[c]]
      | h :: t => (c :: h) :: t

/-- Case-insensitive literal match of `pat` at the head of the input, returning
the remainder on success (the literal part of the source's regular
expressions). -/
def matchLitCI : List Char → List Char → Option (List Char)
  | [], rest => some rest
  | _ :: _, [] => none
  | p :: ps, c :: cs => if asciiLower c = asciiLower p then matchLitCI ps cs else none

/-- Try to match `pat` then `\s*(\S+)` at the head of the input, returning the
captured `\S+` token (`re` semantics: greedy `\s*`, then at least one
non-space character). -/
def matchCap (pat : List Char) (l : List Char) : Option (List Char) :=
  match matchLitCI pat l with
  | none => none
  | some rest =>
    let tok := (rest.dropWhile (fun c => isPySpace c)).takeWhile (fun c => !(isPySpace c))
    if tok = [] then none else some tok

/-- `re.search(pat + r"\s*(\S+)", input, re.IGNORECASE)` returning `group(1)` of
the leftmost match, as used twice by the source. -/
def searchToken (pat : List Char) : List Char → Option (List Char)
  | [] => matchCap pat []
  | c :: cs =>
    match matchCap pat (c :: cs) with
    | some tok => some tok
    | none => searchToken pat cs

/-! ## UTF-8 decoding layer

`whois_query_server` ends with
`b"".join(data_parts).decode('utf-8', errors='ignore')`.  We model the byte
level on `List Nat`: `concatBytes` is `b"".join`, and `utf8DecodeWith errv` is
CPython's UTF-8 decoder parameterised by what the error handler emits for each
maximal invalid subpart — `errv = []` is `errors='ignore'` (the source's
choice), `errv = [0xFFFD]` is `errors='replace'` (the spec's wording). -/

/-- `b"".join(data_parts)`: concatenation of the received chunks. -/
def concatBytes : List (List Nat) → List Nat
  | [] => []
  | b :: bs => b ++ concatBytes bs

/-- Decoder state for a partially read multi-byte sequence:
`(accumulated value, continuation bytes still needed, low bound for the next
byte, high bound for the next byte)`.  The bounds on the first continuation
byte depend on the lead byte (this is how CPython rejects overlong forms,
surrogates and code points above `0x10FFFF`); afterwards they are `128`–`191`. -/
abbrev Utf8Pend := Nat × Nat × Nat × Nat

/-- Classify a byte in start position: emitted output and new pending state.
ASCII is emitted directly, lead bytes open a pending sequence, and an invalid
start byte (`0x80`–`0xC1`, `0xF5`–) is a maximal invalid subpart of its own,
producing `errv`. -/
def utf8Start (errv : List Nat) (b : Nat) : List Nat × Option Utf8Pend :=
  if b < 128 then ([b], none)
  else if 194 ≤ b ∧ b ≤ 223 then ([], some (b - 192, 1, 128, 191))
  else if 224 ≤ b ∧ b ≤ 239 then
    ([], some (b - 224, 2, (if b = 224 then 160 else 128), (if b = 237 then 159 else 191)))
  else if 240 ≤ b ∧ b ≤ 244 then
    ([], some (b - 240, 3, (if b = 240 then 144 else 128), (if b = 244 then 143 else 191)))
  else (errv, none)

/-- CPython's incremental UTF-8 decoder: one byte at a time, carrying the
pending-sequence state.  On each maximal invalid subpart (including a sequence
truncated by end of input) it emits `errv` once and resumes at the offending
byte, exactly as CPython's error handlers do. -/
def utf8Run (errv : List Nat) : Option Utf8Pend → List Nat → List Nat
  | none, [] => []
  | some _, [] => errv
  | none, b :: rest =>
    (utf8Start errv b).1 ++ utf8Run errv (utf8Start errv b).2 rest
  | some (v, need, lo, hi), b :: rest =>
    if lo ≤ b ∧ b ≤ hi then
      if need = 1 then (v * 64 + (b - 128)) :: utf8Run errv none rest
      else utf8Run errv (some (v * 64 + (b - 128), need - 1, 128, 191)) rest
    else errv ++ (utf8Start errv b).1 ++ utf8Run errv (utf8Start errv b).2 rest

/-- CPython's UTF-8 decoder on a whole byte list, parameterised by what the
error handler emits per maximal invalid subpart. -/
def utf8DecodeWith (errv : List Nat) (l : List Nat) : List Nat := utf8Run errv none l

/-- `bytes.decode('utf-8', errors='ignore')`: invalid subparts are dropped.
This is what the source calls. -/
def utf8DecodeIgnore (l : List Nat) : List Nat := utf8DecodeWith [] l

/-- Modelled from the spec: decoding "as UTF-8 with invalid sequences replaced
rather than rejected", i.e. `errors='replace'`, each maximal invalid subpart
becoming one U+FFFD.  Stated only to compare with `utf8DecodeIgnore` above. -/
def utf8DecodeReplaceSpec (l : List Nat) : List Nat := utf8DecodeWith [65533] l

/-- The decode step of `whois_query_server`:
`b"".join(data_parts).decode('utf-8', errors='ignore')`. -/
def transportDecode (chunks : List (List Nat)) : List Nat :=
  utf8DecodeIgnore (concatBytes chunks)

/-- A Unicode scalar value (what a decoded code point must be). -/
def isScalar (c : Nat) : Bool :=
  c < 1114112 && (c < 55296 || 57344 ≤ c)

/-- Standard UTF-8 encoding of one scalar value. -/
def utf8EncodeChar (c : Nat) : List Nat :=
  if c < 128 then [c]
  else if c < 2048 then [192 + c / 64, 128 + c % 64]
  else if c < 65536 then [224 + c / 4096, 128 + (c / 64) % 64, 128 + c % 64]
  else [240 + c / 262144, 128 + (c / 4096) % 64, 128 + (c / 64) % 64, 128 + c % 64]

/-- Standard UTF-8 encoding of a scalar-value sequence. -/
def utf8Encode : List Nat → List Nat
  | [] => []
  | c :: cs => utf8EncodeChar c ++ utf8Encode cs

-- sanity checks against CPython's behaviour
example : utf8DecodeIgnore [104, 105] = [104, 105] := by decide
example : utf8DecodeIgnore [255] = [] := by decide
example : utf8DecodeReplaceSpec [255] = [65533] := by decide
-- b'\xed\xa0\x80' (surrogate): three replacement chars under 'replace'
example : utf8DecodeReplaceSpec [237, 160, 128] = [65533, 65533, 65533] := by decide
-- b'\xe2\x82\xac' = '€' (U+20AC)
example : utf8DecodeIgnore [226, 130, 172] = [8364] := by decide
example : utf8Encode [8364] = [226, 130, 172] := by decide
-- b'\xf0\x90\x80\x41': maximal subpart f0 90 80 is one unit
example : utf8DecodeReplaceSpec [240, 144, 128, 65] = [65533, 65] := by decide
-- truncated two-byte form at end of input
example : utf8DecodeIgnore [65, 194] = [65] := by decide
example : utf8DecodeReplaceSpec [65, 194] = [65, 65533] := by decide
-- overlong, out-of-range and boundary forms, checked against CPython
example : utf8DecodeReplaceSpec [224, 159, 128] = [65533, 65533, 65533] := by decide
example : utf8DecodeIgnore [224, 160, 128] = [2048] := by decide
example : utf8DecodeReplaceSpec [244, 144, 128, 128] = [65533, 65533, 65533, 65533] := by decide
example : utf8DecodeReplaceSpec [192, 175] = [65533, 65533] := by decide
example : utf8DecodeReplaceSpec [245, 128] = [65533, 65533] := by decide
example : utf8DecodeReplaceSpec [226, 128] = [65533] := by decide
example : utf8DecodeIgnore [237, 159, 191] = [55295] := by decide
example : utf8DecodeIgnore [244, 143, 191, 191] = [1114111] := by decide
example : utf8DecodeReplaceSpec [226, 128, 65] = [65533, 65] := by decide
example : utf8DecodeIgnore [240, 144, 141, 136] = [66376] := by decide
example : utf8DecodeReplaceSpec [194, 194, 169] = [65533, 169] := by decide

/-! Round-trip: decoding an encoded scalar sequence is lossless, for any error
handler (so in particular for the source's `errors='ignore'`). -/

set_option maxRecDepth 8192 in
/-- One encoded scalar decodes to itself and leaves the rest untouched. -/
theorem utf8Run_encodeChar (errv : List Nat) (c : Nat) (rest : List Nat)
    (h : isScalar c = true) :
    utf8Run errv none (utf8EncodeChar c ++ rest) = c :: utf8Run errv none rest := by
  have hc : c < 1114112 ∧ (c < 55296 ∨ 57344 ≤ c) := by
    simpa [isScalar, Bool.and_eq_true, Bool.or_eq_true, decide_eq_true_eq] using h
  by_cases h1 : c < 128
  · simp only [utf8EncodeChar, if_pos h1, List.cons_append, List.nil_append]
    rw [utf8Run, utf8Start, if_pos h1]
    simp only [List.cons_append, List.nil_append]
  · by_cases h2 : c < 2048
    · simp only [utf8EncodeChar, if_neg h1, if_pos h2, List.cons_append, List.nil_append]
      rw [utf8Run, utf8Start, if_neg (by omega), if_pos (by omega)]
      dsimp only
      rw [utf8Run, if_pos (by omega), if_pos rfl, List.nil_append]
      congr 1
      omega
    · by_cases h3 : c < 65536
      · simp only [utf8EncodeChar, if_neg h1, if_neg h2, if_pos h3, List.cons_append,
          List.nil_append]
        rw [utf8Run, utf8Start, if_neg (by omega), if_neg (by omega), if_pos (by omega)]
        dsimp only
        rw [utf8Run, if_pos (by constructor <;> (split <;> omega)), if_neg (by omega)]
        rw [utf8Run, if_pos (by omega), if_pos rfl, List.nil_append]
        congr 1
        omega
      · simp only [utf8EncodeChar, if_neg h1, if_neg h2, if_neg h3, List.cons_append,
          List.nil_append]
        rw [utf8Run, utf8Start, if_neg (by omega), if_neg (by omega), if_neg (by omega),
          if_pos (by omega)]
        dsimp only
        rw [utf8Run, if_pos (by constructor <;> (split <;> omega)), if_neg (by omega)]
        rw [utf8Run, if_pos (by omega), if_neg (by omega)]
        rw [utf8Run, if_pos (by omega), if_pos rfl, List.nil_append]
        congr 1
        omega

/-- Decoding is the left inverse of encoding on scalar sequences, for any
error handler. -/
theorem utf8DecodeWith_encode (errv : List Nat) (cs : List Nat)
    (h : ∀ c ∈ cs, isScalar c = true) :
    utf8DecodeWith errv (utf8Encode cs) = cs := by
  induction cs with
  | nil => rfl
  | cons c cs ih =>
    simp only [utf8Encode, utf8DecodeWith] at *
    rw [utf8Run_encodeChar errv c _ (h c (by simp))]
    rw [ih (fun x hx => h x (by simp [hx]))]

-- basic sanity checks of the regex model
example : searchToken ("whois:".toList) ("refer: x\nwhois:  whois.nic.xyz\n".toList)
    = some ("whois.nic.xyz".toList) := by decide
example : searchToken ("Whois Server:".toList) ("   WHOIS SERVER: a.b\n".toList)
    = some ("a.b".toList) := by decide
example : searchToken ("Whois Server:".toList) ("no referral here".toList) = none := by decide
example : pySplitDot ("example.com".toList) = ["example".toList, "com".toList] := by decide
example : pySplitDot ([] : List Char) = [[]] := by decide
example : pyStrip ("  a b \n".toList) = "a b".toList := by decide

/-! ## Core data model

`Env` packages the effectful collaborators of `smart_whois`:
`net q s port timeout` is one `whois_query_server(q, s, port, timeout)` call
(`.ok` = the decoded response text, `.error` = the message of the raised
exception), and `havePywhois`/`pywhois` model the optional `python-whois`
enrichment (`HAVE_PYWHOIS` and `pywhois.whois`; the `.ok` payload stands for
the parsed dictionary in its string rendering).  Every transport call made by
the code is additionally recorded in an explicit `NetCall` trace. -/

/-- One `whois_query_server(query, server, port, timeout)` invocation. -/
structure NetCall where
  query : List Char
  server : List Char
  port : Nat
  timeout : Nat
deriving DecidableEq

/-- The effectful environment a lookup runs in. -/
structure Env where
  net : List Char → List Char → Nat → Nat → Except (List Char) (List Char)
  havePywhois : Bool
  pywhois : List Char → Except (List Char) (List Char)

/-- The result dictionary built by `smart_whois` (`out` in the source);
`none` models an absent/`None` entry, `notes` the `out["notes"]` list. -/
structure LookupResult where
  query : List Char
  server_used : Option (List Char)
  raw : Option (List Char)
  error : Option (List Char)
  parsed : Option (List Char) := none
  raw_follow : Option (List Char) := none
  server_used_follow : Option (List Char) := none
  notes : List (List Char) := []
deriving DecidableEq

def DEFAULT_WHOIS_PORT : Nat := 43

def IANA : List Char := "whois.iana.org".toList
def VERISIGN : List Char := "whois.verisign-grs.com".toList
def PANDI : List Char := "whois.pandi.or.id".toList
def COM : List Char := "com".toList
def NET : List Char := "net".toList
def TLDID : List Char := "id".toList
def SCHID : List Char := ".sch.id".toList
def PYNAME : List Char := "python-whois".toList
def PYFAIL : List Char := "python-whois failed: ".toList
def FOLLOWFAIL : List Char := "follow referral failed: ".toList

/-- `find_whois_server_for_tld` (identical in both files): query
`whois.iana.org` for the TLD, swallow any exception, and return the stripped
`group(1)` of `re.search(r"whois:\s*(\S+)", resp, re.IGNORECASE)` if any. -/
def find_whois_server_for_tld (env : Env) (tld : List Char) (timeout : Nat) :
    Option (List Char) :=
  match env.net tld IANA DEFAULT_WHOIS_PORT timeout with
  | .error _ => none
  | .ok resp =>
    match searchToken ("whois:".toList) resp with
    | some m => some (pyStrip m)
    | none => none

/-- The referral decision of `smart_whois` (both files, the
`re.search(r"Whois Server:\s*(\S+)", raw, re.IGNORECASE)` block):
the stripped captured token of the leftmost match, provided it is nonempty
and differs from the server just queried. -/
def referralTarget (raw stu : List Char) : Option (List Char) :=
  match searchToken ("Whois Server:".toList) raw with
  | none => none
  | some tok =>
    let ref := pyStrip tok
    if ref ≠ [] ∧ ref ≠ stu then some ref else none

/-- The `try: raw = whois_query_server(...)` block of `smart_whois` (identical
in both files): primary query, then at most one referral follow; on primary
failure set `error`, on referral failure append a note.  Also returns the
transport calls it makes. -/
def rawPhase (env : Env) (out : LookupResult) (d stu : List Char)
    (port timeout : Nat) : LookupResult × List NetCall :=
  match env.net d stu port timeout with
  | .error exc => ({ out with error := some exc }, [⟨d, stu, port, timeout⟩])
  | .ok raw =>
    match referralTarget raw stu with
    | none => ({ out with raw := some raw }, [⟨d, stu, port, timeout⟩])
    | some ref =>
      match env.net d ref port timeout with
      | .ok raw2 =>
        ({ out with raw := some raw, raw_follow := some raw2, server_used_follow := some ref },
         [⟨d, stu, port, timeout⟩, ⟨d, ref, port, timeout⟩])
      | .error e =>
        ({ out with raw := some raw, notes := out.notes ++ [FOLLOWFAIL ++ e] },
         [⟨d, stu, port, timeout⟩, ⟨d, ref, port, timeout⟩])

/-- Glue: set `out["server_used"]`, run the raw phase, and prepend the calls
made during server resolution. -/
def afterResolve (env : Env) (out : LookupResult) (d stu : List Char)
    (tr1 : List NetCall) (port timeout : Nat) : LookupResult × List NetCall :=
  ((rawPhase env { out with server_used := some stu } d stu port timeout).1,
   tr1 ++ (rawPhase env { out with server_used := some stu } d stu port timeout).2)

/-- The state of `out` after the optional `python-whois` attempt, in the paths
that continue to the raw-socket lookup (identical in both files; the success
path returns early and is handled in each file's `smart_whois`). -/
def preOut (env : Env) (d : List Char) (server : Option (List Char)) : LookupResult :=
  if env.havePywhois = true ∧ server = none then
    match env.pywhois d with
    | .ok _ => { query := d, server_used := none, raw := none, error := none }
    | .error e => { query := d, server_used := none, raw := none, error := some (PYFAIL ++ e) }
  else { query := d, server_used := none, raw := none, error := none }

/-- `True` iff the `python-whois` branch short-circuits the lookup
(`HAVE_PYWHOIS and server is None` and `pywhois.whois(domain)` succeeds). -/
def pyShortB (env : Env) (d : List Char) (server : Option (List Char)) : Bool :=
  env.havePywhois
    && (match server with | none => true | some _ => false)
    && (match env.pywhois d with | .ok _ => true | .error _ => false)

/-! ## `who_is_CLI.py` -/

namespace WhoIsCLI

/-- Server resolution of `who_is_CLI.py` (`smart_whois` lines 94–100):
split the lowered domain on `.`; with fewer than two labels use
`whois.iana.org` directly (no discovery call); otherwise run discovery on the
last label and apply `srv or ("whois.verisign-grs.com" if tld in ("com","net")
else "whois.iana.org")`.  Returns the chosen server and the discovery calls
made. -/
def resolveServer (env : Env) (d : List Char) (timeout : Nat) :
    List Char × List NetCall :=
  let parts := pySplitDot (pyLower d)
  if parts.length < 2 then (IANA, [])
  else
    let tld := parts.getLastD []
    match find_whois_server_for_tld env tld timeout with
    | some srv =>
      (if srv = [] then (if tld = COM ∨ tld = NET then VERISIGN else IANA) else srv,
       [⟨tld, IANA, DEFAULT_WHOIS_PORT, timeout⟩])
    | none =>
      ((if tld = COM ∨ tld = NET then VERISIGN else IANA),
       [⟨tld, IANA, DEFAULT_WHOIS_PORT, timeout⟩])

/-- `server_to_use = server; if server_to_use is None: ...` — an explicit
override (even the empty string) is used as-is. -/
def serverToUse (env : Env) (d : List Char) (server : Option (List Char))
    (timeout : Nat) : List Char × List NetCall :=
  match server with
  | some s => (s, [])
  | none => resolveServer env d timeout

/-- `smart_whois` of `who_is_CLI.py`: strip the domain, try `python-whois`
(success sets `server_used`, `raw` and `parsed` and returns; failure records
the error and continues), resolve the server, then run the raw-socket phase.
Returns the result dictionary and the transport calls made. -/
def smart_whois (env : Env) (domain : List Char) (server : Option (List Char))
    (port timeout : Nat) : LookupResult × List NetCall :=
  let d := pyStrip domain
  if env.havePywhois = true ∧ server = none then
    match env.pywhois d with
    | .ok dd =>
      ({ query := d, server_used := some PYNAME, raw := some dd, error := none,
         parsed := some dd }, [])
    | .error e =>
      afterResolve env
        { query := d, server_used := none, raw := none, error := some (PYFAIL ++ e) }
        d (serverToUse env d server timeout).1 (serverToUse env d server timeout).2
        port timeout
  else
    afterResolve env { query := d, server_used := none, raw := none, error := none }
      d (serverToUse env d server timeout).1 (serverToUse env d server timeout).2
      port timeout

/-- The per-domain collection step of `main` (non-quiet path, lines 160–164):
run `smart_whois`; with `--no-referral` pop `raw_follow` and
`server_used_follow` from the result before collecting it. -/
def collectResult (env : Env) (d : List Char) (server : Option (List Char))
    (port timeout : Nat) (noReferral : Bool) : LookupResult × List NetCall :=
  ((if noReferral then
      { (smart_whois env d server port timeout).1 with
        raw_follow := none, server_used_follow := none }
    else (smart_whois env d server port timeout).1),
   (smart_whois env d server port timeout).2)

end WhoIsCLI

/-! ## `whois_cli.py` -/

namespace WhoisCli

/-- Server resolution of `whois_cli.py` (`smart_whois` lines 82–96): as in
`who_is_CLI.py`, but the static fallback has an extra branch
`elif tld == "id" or domain.endswith(".sch.id"): "whois.pandi.or.id"`
(note: `endswith` is tested on the stripped, unlowered domain). -/
def resolveServer (env : Env) (d : List Char) (timeout : Nat) :
    List Char × List NetCall :=
  let parts := pySplitDot (pyLower d)
  if parts.length < 2 then (IANA, [])
  else
    let tld := parts.getLastD []
    let fb := if tld = COM ∨ tld = NET then VERISIGN
      else if tld = TLDID ∨ List.isSuffixOf SCHID d then PANDI
      else IANA
    match find_whois_server_for_tld env tld timeout with
    | some srv => (if srv = [] then fb else srv, [⟨tld, IANA, DEFAULT_WHOIS_PORT, timeout⟩])
    | none => (fb, [⟨tld, IANA, DEFAULT_WHOIS_PORT, timeout⟩])

/-- `server_to_use = server; if not server_to_use: ...` — a falsy override
(`None` or the empty string) triggers resolution. -/
def serverToUse (env : Env) (d : List Char) (server : Option (List Char))
    (timeout : Nat) : List Char × List NetCall :=
  match server with
  | some s => if s = [] then resolveServer env d timeout else (s, [])
  | none => resolveServer env d timeout

/-- `smart_whois` of `whois_cli.py`: as in `who_is_CLI.py`, except that the
`python-whois` success path sets `parsed` but not `raw`. -/
def smart_whois (env : Env) (domain : List Char) (server : Option (List Char))
    (port timeout : Nat) : LookupResult × List NetCall :=
  let d := pyStrip domain
  if env.havePywhois = true ∧ server = none then
    match env.pywhois d with
    | .ok dd =>
      ({ query := d, server_used := some PYNAME, raw := none, error := none,
         parsed := some dd }, [])
    | .error e =>
      afterResolve env
        { query := d, server_used := none, raw := none, error := some (PYFAIL ++ e) }
        d (serverToUse env d server timeout).1 (serverToUse env d server timeout).2
        port timeout
  else
    afterResolve env { query := d, server_used := none, raw := none, error := none }
      d (serverToUse env d server timeout).1 (serverToUse env d server timeout).2
      port timeout

/-- The per-domain collection step of `main` (lines 158–160): run
`smart_whois` and collect the result.  `main` parses `--no-referral` but never
reads it, so the flag parameter is unused. -/
def collectResult (env : Env) (d : List Char) (server : Option (List Char))
    (port timeout : Nat) (_noReferral : Bool) : LookupResult × List NetCall :=
  smart_whois env d server port timeout

end WhoisCli

/-! ## Concrete environments used by witnesses and counterexamples -/

/-- A network where every connection fails; no `python-whois`. -/
def envDown : Env :=
  { net := fun _ _ _ _ => .error ("down".toList)
  , havePywhois := false
  , pywhois := fun _ => .error [] }

/-- `python-whois` is installed and succeeds; the raw network is dead. -/
def envPy : Env :=
  { net := fun _ _ _ _ => .error ("down".toList)
  , havePywhois := true
  , pywhois := fun _ => .ok ("parsed".toList) }

/-- Every server answers with a referral pointing at `b.example`, which then
answers `data2`; no `python-whois`. -/
def envRef : Env :=
  { net := fun _ s _ _ =>
      if s = "b.example".toList then .ok ("data2".toList)
      else .ok ("Whois Server: b.example".toList)
  , havePywhois := false
  , pywhois := fun _ => .error [] }

/-- As `envRef`, but the referral server `b.example` is unreachable. -/
def envRefFail : Env :=
  { net := fun _ s _ _ =>
      if s = "b.example".toList then .error ("boom".toList)
      else .ok ("Whois Server: b.example".toList)
  , havePywhois := false
  , pywhois := fun _ => .error [] }

-- end-to-end sanity checks of the embedding
example :
    (WhoIsCLI.smart_whois envRef ("d.com".toList) (some ("a.example".toList)) 43 8).2
      = [⟨"d.com".toList, "a.example".toList, 43, 8⟩,
         ⟨"d.com".toList, "b.example".toList, 43, 8⟩] := by decide
example :
    (WhoIsCLI.smart_whois envRef ("d.com".toList) (some ("a.example".toList)) 43 8).1.raw_follow
      = some ("data2".toList) := by decide
example :
    (WhoisCli.smart_whois envDown ("example.id".toList) none 43 8).1.server_used
      = some PANDI := by decide
example :
    (WhoIsCLI.smart_whois envDown ("example.id".toList) none 43 8).1.server_used
      = some IANA := by decide
example :
    (WhoIsCLI.smart_whois envDown ("example.com".toList) none 43 8).2
      = [⟨"com".toList, IANA, 43, 8⟩, ⟨"example.com".toList, VERISIGN, 43, 8⟩] := by decide
example :
    (WhoisCli.smart_whois envPy ("example.com".toList) none 43 8).1
      = { query := "example.com".toList, server_used := some PYNAME, raw := none,
          error := none, parsed := some ("parsed".toList) } := by decide
example :
    (WhoIsCLI.smart_whois envRefFail ("d.com".toList) (some ("a.example".toList)) 43 8).1.notes
      = [FOLLOWFAIL ++ "boom".toList] := by decide

/-! ## Helper lemmas about the shared pipeline -/

theorem afterResolve_server_used (env : Env) (out : LookupResult) (d stu : List Char)
    (tr1 : List NetCall) (port timeout : Nat) :
    (afterResolve env out d stu tr1 port timeout).1.server_used = some stu := by
  rcases h : env.net d stu port timeout with e | raw
  · simp [afterResolve, rawPhase, h]
  · rcases h2 : referralTarget raw stu with _ | ref
    · simp [afterResolve, rawPhase, h, h2]
    · rcases h3 : env.net d ref port timeout with e2 | raw2 <;>
        simp [afterResolve, rawPhase, h, h2, h3]

/-- On a successful primary query the transport calls are the resolver's, then
the primary, then exactly the referral call dictated by `referralTarget`. -/
theorem afterResolve_trace (env : Env) (out : LookupResult) (d stu : List Char)
    (tr1 : List NetCall) (port timeout : Nat) (raw : List Char)
    (h : env.net d stu port timeout = .ok raw) :
    (afterResolve env out d stu tr1 port timeout).2
      = tr1 ++ ⟨d, stu, port, timeout⟩ ::
          (match referralTarget raw stu with
           | some ref => [⟨d, ref, port, timeout⟩]
           | none => []) := by
  rcases h2 : referralTarget raw stu with _ | ref
  · simp [afterResolve, rawPhase, h, h2]
  · rcases h3 : env.net d ref port timeout with e2 | raw2 <;>
      simp [afterResolve, rawPhase, h, h2, h3]

/-- On a failed primary query: `error` is set, `raw` stays as in `out`, no
referral call is attempted. -/
theorem afterResolve_primary_fail (env : Env) (out : LookupResult) (d stu : List Char)
    (tr1 : List NetCall) (port timeout : Nat) (e : List Char)
    (h : env.net d stu port timeout = .error e) :
    afterResolve env out d stu tr1 port timeout
      = ({ out with server_used := some stu, error := some e },
         tr1 ++ [⟨d, stu, port, timeout⟩]) := by
  unfold afterResolve rawPhase
  rw [h]

/-- On a successful primary query whose referral follow-up fails, the result is
the primary result with one note appended — `raw` is populated, and `error`,
`raw_follow`, `server_used_follow` are untouched. -/
theorem afterResolve_follow_fail (env : Env) (out : LookupResult) (d stu : List Char)
    (tr1 : List NetCall) (port timeout : Nat) (raw ref e : List Char)
    (h : env.net d stu port timeout = .ok raw)
    (href : referralTarget raw stu = some ref)
    (h2 : env.net d ref port timeout = .error e) :
    afterResolve env out d stu tr1 port timeout
      = ({ out with server_used := some stu, raw := some raw,
                    notes := out.notes ++ [FOLLOWFAIL ++ e] },
         tr1 ++ [⟨d, stu, port, timeout⟩, ⟨d, ref, port, timeout⟩]) := by
  simp [afterResolve, rawPhase, h, href, h2]

/-- Every branch of the raw phase populates `raw` or `error`. -/
theorem rawPhase_raw_or_error (env : Env) (out : LookupResult) (d stu : List Char)
    (port timeout : Nat) :
    (rawPhase env out d stu port timeout).1.raw ≠ none
      ∨ (rawPhase env out d stu port timeout).1.error ≠ none := by
  rcases h : env.net d stu port timeout with e | raw
  · right; simp [rawPhase, h]
  · rcases h2 : referralTarget raw stu with _ | ref
    · left; simp [rawPhase, h, h2]
    · rcases h3 : env.net d ref port timeout with e2 | raw2 <;>
        (left; simp [rawPhase, h, h2, h3])

theorem smart_whois_not_short_whoIsCLI (env : Env) (domain : List Char)
    (server : Option (List Char)) (port timeout : Nat)
    (h : pyShortB env (pyStrip domain) server = false) :
    WhoIsCLI.smart_whois env domain server port timeout
      = afterResolve env (preOut env (pyStrip domain) server) (pyStrip domain)
          (WhoIsCLI.serverToUse env (pyStrip domain) server timeout).1
          (WhoIsCLI.serverToUse env (pyStrip domain) server timeout).2 port timeout := by
  by_cases hc : env.havePywhois = true ∧ server = none
  · rcases hpy : env.pywhois (pyStrip domain) with e | dd
    · simp [WhoIsCLI.smart_whois, preOut, hc, hpy]
    · exfalso
      rw [pyShortB.eq_def, hc.1, hc.2, hpy] at h
      simp at h
  · simp [WhoIsCLI.smart_whois, preOut, hc]

theorem smart_whois_not_short_whoisCli (env : Env) (domain : List Char)
    (server : Option (List Char)) (port timeout : Nat)
    (h : pyShortB env (pyStrip domain) server = false) :
    WhoisCli.smart_whois env domain server port timeout
      = afterResolve env (preOut env (pyStrip domain) server) (pyStrip domain)
          (WhoisCli.serverToUse env (pyStrip domain) server timeout).1
          (WhoisCli.serverToUse env (pyStrip domain) server timeout).2 port timeout := by
  by_cases hc : env.havePywhois = true ∧ server = none
  · rcases hpy : env.pywhois (pyStrip domain) with e | dd
    · simp [WhoisCli.smart_whois, preOut, hc, hpy]
    · exfalso
      rw [pyShortB.eq_def, hc.1, hc.2, hpy] at h
      simp at h
  · simp [WhoisCli.smart_whois, preOut, hc]

theorem preOut_raw (env : Env) (d : List Char) (server : Option (List Char)) :
    (preOut env d server).raw = none := by
  unfold preOut
  split
  · rcases env.pywhois d with e | dd <;> rfl
  · rfl

theorem preOut_follow_fields (env : Env) (d : List Char) (server : Option (List Char)) :
    (preOut env d server).raw_follow = none
      ∧ (preOut env d server).server_used_follow = none
      ∧ (preOut env d server).notes = [] := by
  unfold preOut
  split
  · rcases env.pywhois d with e | dd <;> exact ⟨rfl, rfl, rfl⟩
  · exact ⟨rfl, rfl, rfl⟩

theorem preOut_error_no_py (env : Env) (d : List Char) (server : Option (List Char))
    (h : env.havePywhois = false) :
    (preOut env d server).error = none := by
  unfold preOut
  rw [if_neg (by simp [h])]

/-! ## Lemmas about `pySplitDot` (for the last-label fallback claims) -/

theorem pySplitDot_ne_nil (l : List Char) : pySplitDot l ≠ [] := by
  cases l with
  | nil => simp [pySplitDot]
  | cons c rest =>
    simp only [pySplitDot]
    split
    · simp
    · split <;> simp

theorem pySplitDot_length (l : List Char) :
    (pySplitDot l).length = l.count '.' + 1 := by
  induction l with
  | nil => simp [pySplitDot]
  | cons c rest ih =>
    simp only [pySplitDot]
    by_cases hc : c = '.'
    · simp [hc, List.count_cons, ih]
    · rw [if_neg hc]
      rcases hsp : pySplitDot rest with _ | ⟨h, t⟩
      · exact absurd hsp (pySplitDot_ne_nil rest)
      · rw [hsp] at ih
        simp only [List.length_cons] at *
        rw [List.count_cons]
        simp [hc, ih]

theorem getLastD_irrel {α : Type} (l : List α) (a b : α) (h : l ≠ []) :
    l.getLastD a = l.getLastD b := by
  cases l with
  | nil => exact absurd rfl h
  | cons x xs => rw [List.getLastD_cons, List.getLastD_cons]

/-- The last `.`-separated label is determined by the part after the last
separator: prepending anything before a `'.'` does not change it. -/
theorem pySplitDot_getLastD_append (xs ys : List Char) :
    (pySplitDot (xs ++ '.' :: ys)).getLastD [] = (pySplitDot ys).getLastD [] := by
  induction xs with
  | nil =>
    show (pySplitDot ('.' :: ys)).getLastD [] = _
    rw [pySplitDot, if_pos rfl, List.getLastD_cons]
  | cons c xs ih =>
    simp only [List.cons_append, pySplitDot]
    by_cases hc : c = '.'
    · rw [if_pos hc, List.getLastD_cons]
      exact ih
    · rw [if_neg hc]
      rcases hsp : pySplitDot (xs ++ '.' :: ys) with _ | ⟨h, t⟩
      · exact absurd hsp (pySplitDot_ne_nil _)
      · have hlen := pySplitDot_length (xs ++ '.' :: ys)
        rw [hsp] at hlen
        have hcnt : 1 ≤ (xs ++ '.' :: ys).count '.' := by
          rw [List.count_append, List.count_cons]
          simp
          omega
        have ht : t ≠ [] := by
          intro h0
          subst h0
          rw [List.length_cons, List.length_nil] at hlen
          omega
        rw [hsp] at ih
        rw [List.getLastD_cons] at ih ⊢
        rw [getLastD_irrel t (c :: h) h ht]
        exact ih

/-- A domain ending in `".sch.id"` has last lowered label `"id"`. -/
theorem lastLabel_of_schid (d : List Char) (hs : SCHID <:+ d) :
    (pySplitDot (pyLower d)).getLastD [] = TLDID := by
  obtain ⟨zs, hzs⟩ := hs
  subst hzs
  have hmap : pyLower (zs ++ SCHID) = pyLower zs ++ ('.' :: ("sch.id".toList)) := by
    simp only [pyLower, List.map_append]
    congr 1
  rw [hmap, pySplitDot_getLastD_append]
  decide

deriving instance DecidableEq for Except

theorem pyShortB_no_py (env : Env) (d : List Char) (server : Option (List Char))
    (h : env.havePywhois = false) : pyShortB env d server = false := by
  simp [pyShortB, h]

theorem pyShortB_some (env : Env) (d s : List Char) :
    pyShortB env d (some s) = false := by
  simp [pyShortB]

theorem pyShortB_pyfail (env : Env) (d : List Char) (server : Option (List Char))
    (e : List Char) (h : env.pywhois d = .error e) :
    pyShortB env d server = false := by
  rw [pyShortB.eq_def, h]
  simp

/-! ## The claims -/

/-- C1: after a successful primary query, an additional (referral) query is
issued iff the raw response matches `Whois Server:\s*(\S+)` (case-insensitive,
leftmost match, as `re.search` finds it) with a captured token differing from
the server just queried; when issued it is exactly one query to that token with
the same domain, port and timeout, and never more than one hop regardless of
what the referral response contains.  The call trace of `smart_whois` is, in
both files, exactly: resolver calls, the primary call, then the one referral
call dictated by `referralTarget` (or nothing). -/
theorem c1_referral_single_hop (env : Env) (domain : List Char)
    (server : Option (List Char)) (port timeout : Nat) (rawA rawB : List Char)
    (hshort : pyShortB env (pyStrip domain) server = false)
    (hA : env.net (pyStrip domain)
        (WhoIsCLI.serverToUse env (pyStrip domain) server timeout).1 port timeout
        = .ok rawA)
    (hB : env.net (pyStrip domain)
        (WhoisCli.serverToUse env (pyStrip domain) server timeout).1 port timeout
        = .ok rawB) :
    (WhoIsCLI.smart_whois env domain server port timeout).2
      = (WhoIsCLI.serverToUse env (pyStrip domain) server timeout).2
        ++ ⟨pyStrip domain, (WhoIsCLI.serverToUse env (pyStrip domain) server timeout).1,
              port, timeout⟩ ::
            (match referralTarget rawA
                (WhoIsCLI.serverToUse env (pyStrip domain) server timeout).1 with
             | some ref => [⟨pyStrip domain, ref, port, timeout⟩]
             | none => [])
    ∧ (WhoisCli.smart_whois env domain server port timeout).2
      = (WhoisCli.serverToUse env (pyStrip domain) server timeout).2
        ++ ⟨pyStrip domain, (WhoisCli.serverToUse env (pyStrip domain) server timeout).1,
              port, timeout⟩ ::
            (match referralTarget rawB
                (WhoisCli.serverToUse env (pyStrip domain) server timeout).1 with
             | some ref => [⟨pyStrip domain, ref, port, timeout⟩]
             | none => []) := by
  constructor
  · rw [smart_whois_not_short_whoIsCLI env domain server port timeout hshort]
    exact afterResolve_trace env _ _ _ _ _ _ rawA hA
  · rw [smart_whois_not_short_whoisCli env domain server port timeout hshort]
    exact afterResolve_trace env _ _ _ _ _ _ rawB hB

theorem c1_referral_single_hop_witness :
    (WhoIsCLI.smart_whois envRef ("d.com".toList) (some ("a.example".toList)) 43 8).2
      = [⟨"d.com".toList, "a.example".toList, 43, 8⟩,
         ⟨"d.com".toList, "b.example".toList, 43, 8⟩]
    ∧ (WhoisCli.smart_whois envRef ("d.com".toList) (some ("a.example".toList)) 43 8).2
      = [⟨"d.com".toList, "a.example".toList, 43, 8⟩,
         ⟨"d.com".toList, "b.example".toList, 43, 8⟩] := by
  have h := c1_referral_single_hop envRef ("d.com".toList) (some ("a.example".toList)) 43 8
    ("Whois Server: b.example".toList) ("Whois Server: b.example".toList)
    (by decide) (by decide) (by decide)
  revert h
  decide

/-- C2 (amended): for a domain with at least two labels and no server
override, when discovery yields nothing the fallback is static:
`com`/`net` → `whois.verisign-grs.com`, and otherwise `whois.iana.org` —
except that in `whois_cli.py` a last label `id` (or a domain ending in
`.sch.id`) falls back to `whois.pandi.or.id` first. -/
theorem c2_static_fallback (env : Env) (domain tld : List Char) (timeout : Nat)
    (hparts : 2 ≤ (pySplitDot (pyLower domain)).length)
    (htld : (pySplitDot (pyLower domain)).getLastD [] = tld)
    (hdisc : find_whois_server_for_tld env tld timeout = none) :
    (WhoIsCLI.serverToUse env domain none timeout).1
      = (if tld = COM ∨ tld = NET then VERISIGN else IANA)
    ∧ (WhoisCli.serverToUse env domain none timeout).1
      = (if tld = COM ∨ tld = NET then VERISIGN
         else if tld = TLDID ∨ List.isSuffixOf SCHID domain then PANDI else IANA) := by
  constructor
  · simp only [WhoIsCLI.serverToUse, WhoIsCLI.resolveServer]
    rw [if_neg (by omega), htld, hdisc]
  · simp only [WhoisCli.serverToUse, WhoisCli.resolveServer]
    rw [if_neg (by omega), htld, hdisc]

theorem c2_static_fallback_witness :
    (WhoIsCLI.serverToUse envDown ("example.xyz".toList) none 8).1 = IANA
    ∧ (WhoisCli.serverToUse envDown ("example.xyz".toList) none 8).1 = IANA := by
  have h := c2_static_fallback envDown ("example.xyz".toList) ("xyz".toList) 8
    (by decide) (by decide) (by decide)
  revert h
  decide

/-- C2 (counterexample): for `example.id` with a dead network (so discovery
yields no `whois:` token) and no override, `whois_cli.py` uses
`whois.pandi.or.id`, not `whois.iana.org` as the claim states for every
non-`com`/`net` last label. -/
theorem c2_static_fallback_cex :
    2 ≤ (pySplitDot (pyLower ("example.id".toList))).length
    ∧ find_whois_server_for_tld envDown ("id".toList) 8 = none
    ∧ (WhoisCli.smart_whois envDown ("example.id".toList) none 43 8).1.server_used
        = some PANDI
    ∧ PANDI ≠ IANA := by decide

/-- C7: `find_whois_server_for_tld` swallows a failing bootstrap query and
returns no server, and the caller then falls through to the static fallback
(in each file's form). -/
theorem c7_discovery_failure_swallowed (env : Env) (tld domain e : List Char)
    (timeout : Nat)
    (h : env.net tld IANA DEFAULT_WHOIS_PORT timeout = .error e)
    (hparts : 2 ≤ (pySplitDot (pyLower domain)).length)
    (htld : (pySplitDot (pyLower domain)).getLastD [] = tld) :
    find_whois_server_for_tld env tld timeout = none
    ∧ (WhoIsCLI.resolveServer env domain timeout).1
        = (if tld = COM ∨ tld = NET then VERISIGN else IANA)
    ∧ (WhoisCli.resolveServer env domain timeout).1
        = (if tld = COM ∨ tld = NET then VERISIGN
           else if tld = TLDID ∨ List.isSuffixOf SCHID domain then PANDI else IANA) := by
  have hf : find_whois_server_for_tld env tld timeout = none := by
    unfold find_whois_server_for_tld
    rw [h]
  refine ⟨hf, ?_, ?_⟩
  · simp only [WhoIsCLI.resolveServer]
    rw [if_neg (by omega), htld, hf]
  · simp only [WhoisCli.resolveServer]
    rw [if_neg (by omega), htld, hf]

theorem c7_discovery_failure_swallowed_witness :
    find_whois_server_for_tld envDown ("com".toList) 8 = none
    ∧ (WhoIsCLI.resolveServer envDown ("example.com".toList) 8).1 = VERISIGN
    ∧ (WhoisCli.resolveServer envDown ("example.com".toList) 8).1 = VERISIGN := by
  have h := c7_discovery_failure_swallowed envDown ("com".toList)
    ("example.com".toList) ("down".toList) 8 (by decide) (by decide) (by decide)
  revert h
  decide

/-- C8: a domain whose dot-split has fewer than two labels, with no override,
resolves to `whois.iana.org` directly with no discovery call, in both files;
`server_used` on the full lookup is `whois.iana.org`. -/
theorem c8_few_labels_direct_iana (env : Env) (domain : List Char)
    (port timeout : Nat)
    (hlab : (pySplitDot (pyLower (pyStrip domain))).length < 2)
    (hshort : pyShortB env (pyStrip domain) none = false) :
    WhoIsCLI.serverToUse env (pyStrip domain) none timeout = (IANA, [])
    ∧ WhoisCli.serverToUse env (pyStrip domain) none timeout = (IANA, [])
    ∧ (WhoIsCLI.smart_whois env domain none port timeout).1.server_used = some IANA
    ∧ (WhoisCli.smart_whois env domain none port timeout).1.server_used = some IANA := by
  have hA : WhoIsCLI.serverToUse env (pyStrip domain) none timeout = (IANA, []) := by
    simp only [WhoIsCLI.serverToUse, WhoIsCLI.resolveServer]
    rw [if_pos hlab]
  have hB : WhoisCli.serverToUse env (pyStrip domain) none timeout = (IANA, []) := by
    simp only [WhoisCli.serverToUse, WhoisCli.resolveServer]
    rw [if_pos hlab]
  refine ⟨hA, hB, ?_, ?_⟩
  · rw [smart_whois_not_short_whoIsCLI env domain none port timeout hshort,
      afterResolve_server_used, hA]
  · rw [smart_whois_not_short_whoisCli env domain none port timeout hshort,
      afterResolve_server_used, hB]

theorem c8_few_labels_direct_iana_witness :
    WhoIsCLI.serverToUse envDown ("localhost".toList) none 8 = (IANA, [])
    ∧ WhoisCli.serverToUse envDown ("localhost".toList) none 8 = (IANA, [])
    ∧ (WhoIsCLI.smart_whois envDown ("localhost".toList) none 43 8).1.server_used = some IANA
    ∧ (WhoisCli.smart_whois envDown ("localhost".toList) none 43 8).1.server_used
        = some IANA := by
  have h := c8_few_labels_direct_iana envDown ("localhost".toList) 43 8
    (by decide) (by decide)
  revert h
  decide

/-- C10: in `whois_cli.py` only, a domain with at least two labels whose last
label is `id` (or which ends in `.sch.id`), when discovery yields nothing and
no override is given, falls back to `whois.pandi.or.id`; `who_is_CLI.py` falls
back to `whois.iana.org` on the same input. -/
theorem c10_pandi_fallback (env : Env) (domain : List Char) (timeout : Nat)
    (hparts : 2 ≤ (pySplitDot (pyLower domain)).length)
    (hdisc : find_whois_server_for_tld env
        ((pySplitDot (pyLower domain)).getLastD []) timeout = none)
    (hid : (pySplitDot (pyLower domain)).getLastD [] = TLDID ∨ SCHID <:+ domain) :
    (WhoisCli.resolveServer env domain timeout).1 = PANDI
    ∧ (WhoIsCLI.resolveServer env domain timeout).1 = IANA := by
  have htld : (pySplitDot (pyLower domain)).getLastD [] = TLDID := by
    rcases hid with h | h
    · exact h
    · exact lastLabel_of_schid domain h
  rw [htld] at hdisc
  constructor
  · simp only [WhoisCli.resolveServer]
    rw [if_neg (by omega), htld, hdisc]
    rw [if_neg (by decide), if_pos (Or.inl rfl)]
  · simp only [WhoIsCLI.resolveServer]
    rw [if_neg (by omega), htld, hdisc]
    rw [if_neg (by decide)]

theorem c10_pandi_fallback_witness :
    (WhoisCli.resolveServer envDown ("example.id".toList) 8).1 = PANDI
    ∧ (WhoIsCLI.resolveServer envDown ("example.id".toList) 8).1 = IANA := by
  have h := c10_pandi_fallback envDown ("example.id".toList) 8
    (by decide) (by decide) (Or.inl (by decide))
  revert h
  decide

/-- C4 (amended): a lookup result never has `raw` and `error` both absent —
except that in `whois_cli.py` the structured-parser success path leaves both
absent, populating `parsed` instead.  Stated hypothesis-free as a
disjunction. -/
theorem c4_raw_error_invariant (env : Env) (domain : List Char)
    (server : Option (List Char)) (port timeout : Nat) :
    ((WhoIsCLI.smart_whois env domain server port timeout).1.raw ≠ none
      ∨ (WhoIsCLI.smart_whois env domain server port timeout).1.error ≠ none)
    ∧ ((WhoisCli.smart_whois env domain server port timeout).1.raw ≠ none
      ∨ (WhoisCli.smart_whois env domain server port timeout).1.error ≠ none
      ∨ (WhoisCli.smart_whois env domain server port timeout).1.parsed ≠ none) := by
  by_cases hc : env.havePywhois = true ∧ server = none
  · rcases hpy : env.pywhois (pyStrip domain) with e | dd
    · have hns : pyShortB env (pyStrip domain) server = false :=
        pyShortB_pyfail env (pyStrip domain) server e hpy
      constructor
      · rw [smart_whois_not_short_whoIsCLI env domain server port timeout hns]
        exact rawPhase_raw_or_error env _ _ _ _ _
      · rw [smart_whois_not_short_whoisCli env domain server port timeout hns]
        rcases rawPhase_raw_or_error env
            { preOut env (pyStrip domain) server with
                server_used := some (WhoisCli.serverToUse env (pyStrip domain) server timeout).1 }
            (pyStrip domain) (WhoisCli.serverToUse env (pyStrip domain) server timeout).1
            port timeout with h | h
        · exact Or.inl h
        · exact Or.inr (Or.inl h)
    · constructor
      · left
        simp [WhoIsCLI.smart_whois, hc, hpy]
      · right; right
        simp [WhoisCli.smart_whois, hc, hpy]
  · have hns : pyShortB env (pyStrip domain) server = false := by
      rcases h1 : env.havePywhois
      · exact pyShortB_no_py env (pyStrip domain) server h1
      · rcases h2 : server with _ | s
        · exact absurd ⟨h1, rfl⟩ (h2 ▸ hc)
        · exact pyShortB_some env (pyStrip domain) s
    constructor
    · rw [smart_whois_not_short_whoIsCLI env domain server port timeout hns]
      exact rawPhase_raw_or_error env _ _ _ _ _
    · rw [smart_whois_not_short_whoisCli env domain server port timeout hns]
      rcases rawPhase_raw_or_error env
          { preOut env (pyStrip domain) server with
              server_used := some (WhoisCli.serverToUse env (pyStrip domain) server timeout).1 }
          (pyStrip domain) (WhoisCli.serverToUse env (pyStrip domain) server timeout).1
          port timeout with h | h
      · exact Or.inl h
      · exact Or.inr (Or.inl h)

/-- C4 (counterexample): in `whois_cli.py`, when `python-whois` is available
and succeeds, the result has `raw` and `error` both absent (with no failed
first query — `parsed` is populated instead), contradicting the claimed
invariant. -/
theorem c4_raw_error_invariant_cex :
    (WhoisCli.smart_whois envPy ("example.com".toList) none 43 8).1.raw = none
    ∧ (WhoisCli.smart_whois envPy ("example.com".toList) none 43 8).1.error = none
    ∧ (WhoisCli.smart_whois envPy ("example.com".toList) none 43 8).1.parsed
        = some ("parsed".toList) := by decide

/-- C5: when the primary transport query fails, `smart_whois` (both files)
sets `error` to the exception text, leaves `raw`, `raw_follow` and
`server_used_follow` absent, and the trace stops at the primary call — no
referral attempt and no retry. -/
theorem c5_primary_failure_aborts (env : Env) (domain : List Char)
    (server : Option (List Char)) (port timeout : Nat) (eA eB : List Char)
    (hshort : pyShortB env (pyStrip domain) server = false)
    (hA : env.net (pyStrip domain)
        (WhoIsCLI.serverToUse env (pyStrip domain) server timeout).1 port timeout
        = .error eA)
    (hB : env.net (pyStrip domain)
        (WhoisCli.serverToUse env (pyStrip domain) server timeout).1 port timeout
        = .error eB) :
    ((WhoIsCLI.smart_whois env domain server port timeout).1.error = some eA
      ∧ (WhoIsCLI.smart_whois env domain server port timeout).1.raw = none
      ∧ (WhoIsCLI.smart_whois env domain server port timeout).1.raw_follow = none
      ∧ (WhoIsCLI.smart_whois env domain server port timeout).1.server_used_follow = none
      ∧ (WhoIsCLI.smart_whois env domain server port timeout).2
          = (WhoIsCLI.serverToUse env (pyStrip domain) server timeout).2
            ++ [⟨pyStrip domain, (WhoIsCLI.serverToUse env (pyStrip domain) server timeout).1,
                  port, timeout⟩])
    ∧ ((WhoisCli.smart_whois env domain server port timeout).1.error = some eB
      ∧ (WhoisCli.smart_whois env domain server port timeout).1.raw = none
      ∧ (WhoisCli.smart_whois env domain server port timeout).1.raw_follow = none
      ∧ (WhoisCli.smart_whois env domain server port timeout).1.server_used_follow = none
      ∧ (WhoisCli.smart_whois env domain server port timeout).2
          = (WhoisCli.serverToUse env (pyStrip domain) server timeout).2
            ++ [⟨pyStrip domain, (WhoisCli.serverToUse env (pyStrip domain) server timeout).1,
                  port, timeout⟩]) := by
  rw [smart_whois_not_short_whoIsCLI env domain server port timeout hshort,
    smart_whois_not_short_whoisCli env domain server port timeout hshort,
    afterResolve_primary_fail env _ _ _ _ _ _ eA hA,
    afterResolve_primary_fail env _ _ _ _ _ _ eB hB]
  exact ⟨⟨rfl, preOut_raw env _ server, (preOut_follow_fields env _ server).1,
      (preOut_follow_fields env _ server).2.1, rfl⟩,
    ⟨rfl, preOut_raw env _ server, (preOut_follow_fields env _ server).1,
      (preOut_follow_fields env _ server).2.1, rfl⟩⟩

theorem c5_primary_failure_aborts_witness :
    ((WhoIsCLI.smart_whois envDown ("d.com".toList) (some ("a.example".toList)) 43 8).1.error
        = some ("down".toList)
      ∧ (WhoIsCLI.smart_whois envDown ("d.com".toList) (some ("a.example".toList)) 43 8).1.raw
        = none)
    ∧ ((WhoisCli.smart_whois envDown ("d.com".toList) (some ("a.example".toList)) 43 8).1.error
        = some ("down".toList)
      ∧ (WhoisCli.smart_whois envDown ("d.com".toList) (some ("a.example".toList)) 43 8).2
        = [⟨"d.com".toList, "a.example".toList, 43, 8⟩]) := by
  have h := c5_primary_failure_aborts envDown ("d.com".toList) (some ("a.example".toList))
    43 8 ("down".toList) ("down".toList) (by decide) (by decide) (by decide)
  revert h
  decide

/-- C6: a failed referral follow-up after a successful primary query only
appends a note: in general the raw phase returns the already-built result with
`raw` populated and one note appended (`error`, `raw_follow`,
`server_used_follow` untouched); on the full lookup (both files, no
`python-whois`) the result keeps the primary `raw`, has `error` absent, no
referral fields, and exactly the one note. -/
theorem c6_referral_failure_note (env : Env) (out : LookupResult)
    (d stu : List Char) (tr1 : List NetCall) (domain : List Char)
    (server : Option (List Char)) (port timeout : Nat)
    (raw ref e rawA refA eA rawB refB eB : List Char)
    (h1 : env.net d stu port timeout = .ok raw)
    (h2 : referralTarget raw stu = some ref)
    (h3 : env.net d ref port timeout = .error e)
    (hpw : env.havePywhois = false)
    (hA1 : env.net (pyStrip domain)
        (WhoIsCLI.serverToUse env (pyStrip domain) server timeout).1 port timeout
        = .ok rawA)
    (hA2 : referralTarget rawA
        (WhoIsCLI.serverToUse env (pyStrip domain) server timeout).1 = some refA)
    (hA3 : env.net (pyStrip domain) refA port timeout = .error eA)
    (hB1 : env.net (pyStrip domain)
        (WhoisCli.serverToUse env (pyStrip domain) server timeout).1 port timeout
        = .ok rawB)
    (hB2 : referralTarget rawB
        (WhoisCli.serverToUse env (pyStrip domain) server timeout).1 = some refB)
    (hB3 : env.net (pyStrip domain) refB port timeout = .error eB) :
    afterResolve env out d stu tr1 port timeout
      = ({ out with server_used := some stu, raw := some raw,
                    notes := out.notes ++ [FOLLOWFAIL ++ e] },
         tr1 ++ [⟨d, stu, port, timeout⟩, ⟨d, ref, port, timeout⟩])
    ∧ ((WhoIsCLI.smart_whois env domain server port timeout).1.raw = some rawA
      ∧ (WhoIsCLI.smart_whois env domain server port timeout).1.error = none
      ∧ (WhoIsCLI.smart_whois env domain server port timeout).1.raw_follow = none
      ∧ (WhoIsCLI.smart_whois env domain server port timeout).1.server_used_follow = none
      ∧ (WhoIsCLI.smart_whois env domain server port timeout).1.notes
          = [FOLLOWFAIL ++ eA])
    ∧ ((WhoisCli.smart_whois env domain server port timeout).1.raw = some rawB
      ∧ (WhoisCli.smart_whois env domain server port timeout).1.error = none
      ∧ (WhoisCli.smart_whois env domain server port timeout).1.raw_follow = none
      ∧ (WhoisCli.smart_whois env domain server port timeout).1.server_used_follow = none
      ∧ (WhoisCli.smart_whois env domain server port timeout).1.notes
          = [FOLLOWFAIL ++ eB]) := by
  have hshort : pyShortB env (pyStrip domain) server = false :=
    pyShortB_no_py env (pyStrip domain) server hpw
  refine ⟨afterResolve_follow_fail env out d stu tr1 port timeout raw ref e h1 h2 h3,
    ?_, ?_⟩
  · rw [smart_whois_not_short_whoIsCLI env domain server port timeout hshort,
      afterResolve_follow_fail env _ _ _ _ _ _ rawA refA eA hA1 hA2 hA3]
    refine ⟨rfl, preOut_error_no_py env _ server hpw,
      (preOut_follow_fields env _ server).1, (preOut_follow_fields env _ server).2.1, ?_⟩
    rw [show ({ preOut env (pyStrip domain) server with
        server_used := some (WhoIsCLI.serverToUse env (pyStrip domain) server timeout).1,
        raw := some rawA,
        notes := (preOut env (pyStrip domain) server).notes ++ [FOLLOWFAIL ++ eA]
          } : LookupResult).notes
      = (preOut env (pyStrip domain) server).notes ++ [FOLLOWFAIL ++ eA] from rfl]
    rw [(preOut_follow_fields env (pyStrip domain) server).2.2]
    rfl
  · rw [smart_whois_not_short_whoisCli env domain server port timeout hshort,
      afterResolve_follow_fail env _ _ _ _ _ _ rawB refB eB hB1 hB2 hB3]
    refine ⟨rfl, preOut_error_no_py env _ server hpw,
      (preOut_follow_fields env _ server).1, (preOut_follow_fields env _ server).2.1, ?_⟩
    rw [show ({ preOut env (pyStrip domain) server with
        server_used := some (WhoisCli.serverToUse env (pyStrip domain) server timeout).1,
        raw := some rawB,
        notes := (preOut env (pyStrip domain) server).notes ++ [FOLLOWFAIL ++ eB]
          } : LookupResult).notes
      = (preOut env (pyStrip domain) server).notes ++ [FOLLOWFAIL ++ eB] from rfl]
    rw [(preOut_follow_fields env (pyStrip domain) server).2.2]
    rfl

theorem c6_referral_failure_note_witness :
    afterResolve envRefFail
        { query := "d.com".toList, server_used := none, raw := none, error := none }
        ("d.com".toList) ("a.example".toList) [] 43 8
      = ({ query := "d.com".toList, server_used := some ("a.example".toList),
           raw := some ("Whois Server: b.example".toList), error := none,
           notes := [FOLLOWFAIL ++ "boom".toList] },
         [⟨"d.com".toList, "a.example".toList, 43, 8⟩,
          ⟨"d.com".toList, "b.example".toList, 43, 8⟩])
    ∧ (WhoIsCLI.smart_whois envRefFail ("d.com".toList) (some ("a.example".toList)) 43 8).1.raw
        = some ("Whois Server: b.example".toList)
    ∧ (WhoIsCLI.smart_whois envRefFail ("d.com".toList) (some ("a.example".toList)) 43 8).1.error
        = none
    ∧ (WhoisCli.smart_whois envRefFail ("d.com".toList) (some ("a.example".toList)) 43 8).1.notes
        = [FOLLOWFAIL ++ "boom".toList] := by
  have h := c6_referral_failure_note envRefFail
    { query := "d.com".toList, server_used := none, raw := none, error := none }
    ("d.com".toList) ("a.example".toList) [] ("d.com".toList)
    (some ("a.example".toList)) 43 8
    ("Whois Server: b.example".toList) ("b.example".toList) ("boom".toList)
    ("Whois Server: b.example".toList) ("b.example".toList) ("boom".toList)
    ("Whois Server: b.example".toList) ("b.example".toList) ("boom".toList)
    (by decide) (by decide) (by decide) (by decide) (by decide) (by decide)
    (by decide) (by decide) (by decide) (by decide)
  revert h
  decide

/-- C9 (amended): `--no-referral` never affects the transport calls (the
referral follow still happens); in `who_is_CLI.py` it removes `raw_follow` and
`server_used_follow` from the collected result, while in `whois_cli.py` the
flag is parsed but unused, leaving the collected result unchanged. -/
theorem c9_no_referral_presentation (env : Env) (domain : List Char)
    (server : Option (List Char)) (port timeout : Nat) (b : Bool) :
    (WhoIsCLI.collectResult env domain server port timeout b).2
      = (WhoIsCLI.smart_whois env domain server port timeout).2
    ∧ (WhoisCli.collectResult env domain server port timeout b).2
      = (WhoisCli.smart_whois env domain server port timeout).2
    ∧ (WhoIsCLI.collectResult env domain server port timeout true).1.raw_follow = none
    ∧ (WhoIsCLI.collectResult env domain server port timeout true).1.server_used_follow = none
    ∧ (WhoisCli.collectResult env domain server port timeout b).1
      = (WhoisCli.smart_whois env domain server port timeout).1 := by
  refine ⟨rfl, rfl, ?_, ?_, rfl⟩ <;> simp [WhoIsCLI.collectResult]

/-- C9 (counterexample): in `whois_cli.py` the `--no-referral` flag does not
remove the referral fields — with the flag set, a lookup that followed a
referral still carries `raw_follow` in the collected result. -/
theorem c9_no_referral_cex :
    (WhoisCli.collectResult envRef ("d.com".toList) (some ("a.example".toList))
        43 8 true).1.raw_follow = some ("data2".toList)
    ∧ (WhoisCli.collectResult envRef ("d.com".toList) (some ("a.example".toList))
        43 8 true).1.raw_follow ≠ none := by decide

/-- C3 (amended): the transport decode never fails — it is a total function on
arbitrary byte sequences; on valid UTF-8 the round trip through
`b"".join(...).decode('utf-8', errors='ignore')` is lossless; and an invalid
start byte is dropped (ignored), not replaced. -/
theorem c3_transport_decode (chunks : List (List Nat)) (cs : List Nat)
    (b : Nat) (l : List Nat)
    (h : ∀ c ∈ cs, isScalar c = true)
    (henc : concatBytes chunks = utf8Encode cs)
    (hb : (128 ≤ b ∧ b ≤ 193) ∨ 245 ≤ b) :
    transportDecode chunks = cs
    ∧ utf8DecodeIgnore (b :: l) = utf8DecodeIgnore l := by
  constructor
  · rw [transportDecode, henc]
    exact utf8DecodeWith_encode [] cs h
  · show utf8Run [] none (b :: l) = utf8Run [] none l
    rw [utf8Run, utf8Start, if_neg (by omega), if_neg (by omega), if_neg (by omega),
      if_neg (by omega)]
    dsimp only
    rw [List.nil_append]

theorem c3_transport_decode_witness :
    transportDecode [[104], [105]] = [104, 105]
    ∧ utf8DecodeIgnore (255 :: [104]) = utf8DecodeIgnore [104] := by
  have h := c3_transport_decode [[104], [105]] [104, 105] 255 [104]
    (by decide) (by decide) (by decide)
  revert h
  decide

/-- C3 (counterexample): the source decodes with `errors='ignore'`, which
drops the invalid byte `0xFF` and yields the empty text, whereas decoding
"with invalid sequences replaced" (`errors='replace'`, as the claim states)
would yield one U+FFFD — so the claimed replace behaviour does not hold. -/
theorem c3_transport_decode_cex :
    utf8DecodeIgnore [255] = []
    ∧ utf8DecodeReplaceSpec [255] = [65533]
    ∧ utf8DecodeIgnore [255] ≠ utf8DecodeReplaceSpec [255]
    ∧ transportDecode [[255]] = [] := by decide
